import Mathlib

/-!
Verification of the bar-chart visual's view-model builder
(`Visual.getViewModel`, src/unnamed/part_000, lines 296-374).

JavaScript values are shallowly embedded:
* JS numbers are modelled as `ℚ` (the inputs of interest are exact decimals);
* a field that may be `undefined`/`null` is an `Option`;
* reading `a[i]` past the end of an array is `List.getElem?` returning `none`;
* an expression that throws a `TypeError` (a property access on `undefined`)
  is `Except.error JsError.typeError`, so the builder as a whole is a total
  function into `Except JsError ViewModel`.

Host-supplied services (the colour palette and the selection-id builder) are
not part of the repository; the palette is an explicit function parameter and
the selection id is modelled from the spec (see `SelectionId`).
-/

/-- The one kind of exception the modelled code can raise: a `TypeError`
from accessing a property of `undefined`. -/
inductive JsError where
  | typeError
deriving DecidableEq

/-- Modelled from the spec: the host's
`createSelectionIdBuilder().withCategory(categories, i).createSelectionId()`
(library code, absent from src) is "a stable key combining the category
column's source identity and row index i". -/
structure SelectionId where
  sourceKey : String
  row : Nat
deriving DecidableEq

/-- One tooltip row (`VisualTooltipDataItem`): a display name and a value.
The value is `Option String` because the category tooltip stores
`categories.values[i]`, which is `undefined` past the array's end. -/
structure Tooltip where
  displayName : String
  value : Option String
deriving DecidableEq

/-- `DataPoint` (src/unnamed/part_000 lines 30-37). `value` is `ℚ` because a
data point whose measure is `undefined` never survives construction: the
measure tooltip's `toFixed` throws first (line 344). -/
structure DataPoint where
  category : Option String
  value : ℚ
  colour : String
  identity : SelectionId
  highlighted : Bool
  tooltips : List Tooltip
deriving DecidableEq

/-- `ViewModel` (src/unnamed/part_000 lines 39-44). `maxValue` is
`Option ℚ` because `d3.max` of an empty array is `undefined` (`none`),
while the initial value is the number `0` (`some 0`). -/
structure ViewModel where
  dataPoints : List DataPoint
  maxValue : Option ℚ
  highlights : Bool
  average : ℚ
deriving DecidableEq

/-- The category column `dv[0].categorical.categories[0]`: its `source`
(present or not; its identity key when present), its `values` array and the
optional per-row `objects` (colour overrides). An `objects` entry is
`none` when `objects[i]` is null/absent, `some none` when the object exists
but `getFillColor` returns null, and `some (some c)` for fill colour `c`. -/
structure CategoryColumn where
  source : Option String
  values : List String
  objects : Option (List (Option (Option String)))
deriving DecidableEq

/-- The measure column `dv[0].categorical.values[0]`: its `values` array and
the optional `highlights` array, whose entries may be null (`none`). -/
structure ValueColumn where
  values : List ℚ
  highlights : Option (List (Option ℚ))
deriving DecidableEq

/-- `dv[0].categorical`: optional `categories` and `values` arrays. -/
structure Categorical where
  categories : Option (List CategoryColumn)
  values : Option (List ValueColumn)
deriving DecidableEq

/-- One entry of `metadata.columns`: a display name and its roles record
(`roles["category"]`, `roles["measure"]`). -/
structure MetaColumn where
  displayName : String
  roleCategory : Bool
  roleMeasure : Bool
deriving DecidableEq

/-- `dv[0].metadata`. -/
structure Metadata where
  columns : List MetaColumn
deriving DecidableEq

/-- One data view `dv[0]`. -/
structure DataView where
  categorical : Option Categorical
  metadata : Option Metadata
deriving DecidableEq

/-- `VisualUpdateOptions` restricted to what `getViewModel` reads. -/
structure VisualUpdateOptions where
  dataViews : Option (List DataView)
deriving DecidableEq

/-- The fields the guard of `getViewModel` extracts before the main loop:
the category column (with its source key), the measure column, and the two
column display names (lines 316-323). -/
structure Core where
  categories : CategoryColumn
  sourceKey : String
  values : ValueColumn
  catName : String
  valName : String
deriving DecidableEq

/-- The initial / degraded-path view model (lines 300-305). -/
def emptyViewModel : ViewModel :=
  { dataPoints := [], maxValue := some 0, highlights := false, average := 0 }

/-- Modelled from the spec and the JS standard library:
`Number.prototype.toFixed(2)` (absent from src), idealised as exact decimal
rounding, half away from zero, rendered with two fraction digits. -/
def toFixed2 (q : ℚ) : String :=
  let n : Int := if q < 0 then -(Rat.floor (-q * 100 + 1/2)) else Rat.floor (q * 100 + 1/2)
  let a : Nat := n.natAbs
  let fracStr : String := (if a % 100 < 10 then "0" else "") ++ toString (a % 100)
  (if n < 0 then "-" else "") ++ toString (a / 100) ++ "." ++ fracStr

/-- The colour expression (lines 329-332):
`objects && objects[i] && DataViewObjects.getFillColor(objects[i], …, null)
 || this.host.colorPalette.getColor(categories.values[i]).value`.
`palette` is the host's colour service, a parameter of the model. -/
def colourAt (palette : Option String → String)
    (objects : Option (List (Option (Option String))))
    (cat : Option String) (i : Nat) : String :=
  match objects with
  | none => palette cat
  | some l =>
    match l[i]? with
    | none => palette cat
    | some none => palette cat
    | some (some fill) =>
      match fill with
      | none => palette cat
      | some c => if c = "" then palette cat else c

/-- The highlight expression (line 336):
`highlights ? highlights[i] ? true : false : false`, with JS truthiness of a
numeric entry (`null`, `undefined` and `0` are falsy). -/
def highlightedAt (hl : Option (List (Option ℚ))) (i : Nat) : Bool :=
  match hl with
  | none => false
  | some l =>
    match l[i]? with
    | some (some q) => decide (¬ q = 0)
    | _ => false

/-- The pure part of one loop iteration (lines 326-347): the data point built
at index `i` once the measure value `v = values.values[i]` is known to be
defined. -/
def pointAt (palette : Option String → String) (core : Core) (i : Nat) (v : ℚ) :
    DataPoint :=
  let cat := core.categories.values[i]?
  { category := cat
    value := v
    colour := colourAt palette core.categories.objects cat i
    identity := { sourceKey := core.sourceKey, row := i }
    highlighted := highlightedAt core.values.highlights i
    tooltips := [ { displayName := core.catName, value := cat },
                  { displayName := core.valName, value := some (toFixed2 v) } ] }

/-- One loop iteration: when `values.values[i]` is `undefined`, the measure
tooltip's `(values.values[i]).toFixed(2)` (line 344) throws a `TypeError`. -/
def buildPoint (palette : Option String → String) (core : Core) (i : Nat) :
    Except JsError DataPoint :=
  match core.values.values[i]? with
  | none => .error .typeError
  | some v => .ok (pointAt palette core i v)

/-- The loop of lines 325-348, building the points at indices
`start, start+1, …, start+n-1` in order, propagating the first thrown
`TypeError`. -/
def buildPointsFrom (palette : Option String → String) (core : Core) :
    Nat → Nat → Except JsError (List DataPoint)
  | _, 0 => .ok []
  | i, n + 1 =>
    match buildPoint palette core i with
    | .error e => .error e
    | .ok dp =>
      match buildPointsFrom palette core (i + 1) n with
      | .error e => .error e
      | .ok rest => .ok (dp :: rest)

/-- `d3.max(dataPoints, d => d.value)` (d3 v3, line 350): `undefined` on an
empty array, otherwise the maximum. -/
def d3Max : List ℚ → Option ℚ
  | [] => none
  | v :: rest =>
    match d3Max rest with
    | none => some v
    | some m => some (max v m)

/-- The average of lines 353-355: `d3.sum(dataPoints, d => d.value) /
dataPoints.length`, computed only when the list is nonempty, else the
initial `0`. -/
def avgOf (pts : List DataPoint) : ℚ :=
  if 0 < pts.length then (pts.map DataPoint.value).sum / (pts.length : ℚ) else 0

/-- The absolute-deviation tooltip push (lines 357-362). -/
def addAbs (avg : ℚ) (dp : DataPoint) : DataPoint :=
  { dp with tooltips := dp.tooltips ++
      [ { displayName := "Deviation (abs)", value := some (toFixed2 (dp.value - avg)) } ] }

/-- The percent-deviation tooltip push (lines 364-371). -/
def addPct (avg : ℚ) (dp : DataPoint) : DataPoint :=
  { dp with tooltips := dp.tooltips ++
      [ { displayName := "Deviation (%)",
          value := some (toFixed2 (100 * (dp.value - avg) / avg) ++ "%") } ] }

/-- Lines 350-373: given the constructed points, fill in `maxValue`,
`highlights`, `average` and push the deviation tooltips (the percent one
only when `average !== 0`). -/
def assemble (pts : List DataPoint) : ViewModel :=
  let average := avgOf pts
  let withAbs := pts.map (addAbs average)
  { dataPoints := if average ≠ 0 then withAbs.map (addPct average) else withAbs
    maxValue := d3Max (pts.map DataPoint.value)
    highlights := decide (0 < (pts.filter (fun d => d.highlighted)).length)
    average := average }

/-- The guard and destructuring of lines 298-323, in source order.
`.ok none` is the early `return viewModel` (the degraded empty view model);
`.error` marks the property accesses that throw on `undefined`:
`categories[0].source` when the categories array is empty (line 311),
`values.highlights` when the values array is empty (line 319), and
`…filter(…)[0].displayName` when no column carries the role (322-323). -/
def parseInput (opts : VisualUpdateOptions) : Except JsError (Option Core) :=
  match opts.dataViews with
  | none => .ok none
  | some dvs =>
    match dvs[0]? with
    | none => .ok none
    | some dv0 =>
      match dv0.categorical with
      | none => .ok none
      | some view =>
        match view.categories with
        | none => .ok none
        | some catCols =>
          match catCols[0]? with
          | none => .error .typeError
          | some categories =>
            match categories.source with
            | none => .ok none
            | some sourceKey =>
              match view.values with
              | none => .ok none
              | some valCols =>
                match dv0.metadata with
                | none => .ok none
                | some metadata =>
                  match valCols[0]? with
                  | none => .error .typeError
                  | some values =>
                    match (metadata.columns.filter (fun c => c.roleCategory)).head? with
                    | none => .error .typeError
                    | some catCol =>
                      match (metadata.columns.filter (fun c => c.roleMeasure)).head? with
                      | none => .error .typeError
                      | some valCol =>
                        .ok (some { categories := categories, sourceKey := sourceKey,
                                    values := values, catName := catCol.displayName,
                                    valName := valCol.displayName })

/-- The loop plus statistics on the accepted path: iterate to
`Math.max(categories.values.length, values.values.length)` (line 325). -/
def buildViewModel (palette : Option String → String) (core : Core) :
    Except JsError ViewModel :=
  match buildPointsFrom palette core 0
      (Nat.max core.categories.values.length core.values.values.length) with
  | .error e => .error e
  | .ok pts => .ok (assemble pts)

/-- `Visual.getViewModel` (src/unnamed/part_000 lines 296-374) as a total
function: guard, loop, statistics, tooltips. -/
def getViewModel (palette : Option String → String) (opts : VisualUpdateOptions) :
    Except JsError ViewModel :=
  match parseInput opts with
  | .error e => .error e
  | .ok none => .ok emptyViewModel
  | .ok (some core) => buildViewModel palette core

/-- The view model a successful run returns (helper for concrete runs). -/
def vmOf (palette : Option String → String) (opts : VisualUpdateOptions) : ViewModel :=
  match getViewModel palette opts with
  | .ok vm => vm
  | .error _ => emptyViewModel

/-- A throwaway data point, used as the default of `List.getD`. -/
def dpDefault : DataPoint :=
  { category := none, value := 0, colour := "", identity := { sourceKey := "", row := 0 },
    highlighted := false, tooltips := [] }

/-! ## Helper lemmas -/

theorem getViewModel_eq_build (palette : Option String → String)
    (opts : VisualUpdateOptions) (core : Core)
    (hp : parseInput opts = .ok (some core)) :
    getViewModel palette opts = buildViewModel palette core := by
  unfold getViewModel
  rw [hp]

theorem buildViewModel_ok (palette : Option String → String) (core : Core)
    (vm : ViewModel) (h : buildViewModel palette core = .ok vm) :
    ∃ pts, buildPointsFrom palette core 0
        (Nat.max core.categories.values.length core.values.values.length) = .ok pts ∧
      vm = assemble pts := by
  unfold buildViewModel at h
  split at h
  · exact absurd h (by simp)
  · rename_i pts heq
    injection h with h
    exact ⟨pts, heq, h.symm⟩

theorem buildPointsFrom_spec (palette : Option String → String) (core : Core) :
    ∀ (n i : Nat) (l : List DataPoint), buildPointsFrom palette core i n = .ok l →
      l.length = n ∧
      ∀ j, j < n → ∃ v, core.values.values[i + j]? = some v ∧
        l[j]? = some (pointAt palette core (i + j) v) := by
  intro n
  induction n with
  | zero =>
    intro i l h
    unfold buildPointsFrom at h
    injection h with h
    subst h
    exact ⟨rfl, fun j hj => absurd hj (Nat.not_lt_zero j)⟩
  | succ n ih =>
    intro i l h
    unfold buildPointsFrom at h
    unfold buildPoint at h
    cases hv : core.values.values[i]? with
    | none => rw [hv] at h; exact absurd h (by simp)
    | some v =>
      rw [hv] at h
      simp only at h
      cases hrest : buildPointsFrom palette core (i + 1) n with
      | error e => rw [hrest] at h; exact absurd h (by simp)
      | ok rest =>
        rw [hrest] at h
        simp only at h
        injection h with h
        subst h
        obtain ⟨hlen, hspec⟩ := ih (i + 1) rest hrest
        refine ⟨by simp [hlen], ?_⟩
        intro j hj
        cases j with
        | zero => exact ⟨v, by simpa using hv, by simp⟩
        | succ j =>
          obtain ⟨w, hw, hl⟩ := hspec j (Nat.lt_of_succ_lt_succ hj)
          exact ⟨w, by rw [show i + (j + 1) = i + 1 + j by omega]; exact hw,
                 by simpa [show i + (j + 1) = i + 1 + j by omega] using hl⟩

theorem buildPointsFrom_ok_of_le (palette : Option String → String) (core : Core) :
    ∀ (n i : Nat), i + n ≤ core.values.values.length →
      ∃ l, buildPointsFrom palette core i n = .ok l := by
  intro n
  induction n with
  | zero => exact fun i _ => ⟨[], rfl⟩
  | succ n ih =>
    intro i hle
    have hi : i < core.values.values.length := by omega
    obtain ⟨l, hl⟩ := ih (i + 1) (by omega)
    refine ⟨pointAt palette core i core.values.values[i] :: l, ?_⟩
    unfold buildPointsFrom buildPoint
    rw [List.getElem?_eq_getElem hi, hl]

@[simp] theorem addAbs_value (a : ℚ) (dp : DataPoint) : (addAbs a dp).value = dp.value := rfl
@[simp] theorem addAbs_highlighted (a : ℚ) (dp : DataPoint) :
    (addAbs a dp).highlighted = dp.highlighted := rfl
@[simp] theorem addAbs_identity (a : ℚ) (dp : DataPoint) :
    (addAbs a dp).identity = dp.identity := rfl
@[simp] theorem addAbs_category (a : ℚ) (dp : DataPoint) :
    (addAbs a dp).category = dp.category := rfl
@[simp] theorem addPct_value (a : ℚ) (dp : DataPoint) : (addPct a dp).value = dp.value := rfl
@[simp] theorem addPct_highlighted (a : ℚ) (dp : DataPoint) :
    (addPct a dp).highlighted = dp.highlighted := rfl
@[simp] theorem addPct_identity (a : ℚ) (dp : DataPoint) :
    (addPct a dp).identity = dp.identity := rfl
@[simp] theorem addPct_category (a : ℚ) (dp : DataPoint) :
    (addPct a dp).category = dp.category := rfl

theorem assemble_average (pts : List DataPoint) : (assemble pts).average = avgOf pts := rfl

theorem assemble_maxValue (pts : List DataPoint) :
    (assemble pts).maxValue = d3Max (pts.map DataPoint.value) := rfl

theorem assemble_highlights (pts : List DataPoint) :
    (assemble pts).highlights =
      decide (0 < (pts.filter (fun d => d.highlighted)).length) := rfl

theorem assemble_length (pts : List DataPoint) :
    (assemble pts).dataPoints.length = pts.length := by
  by_cases h : avgOf pts = 0 <;> simp [assemble, h]

theorem assemble_getElem (pts : List DataPoint) (j : Nat) :
    (assemble pts).dataPoints[j]? =
      (pts[j]?).map (fun dp =>
        if avgOf pts ≠ 0 then addPct (avgOf pts) (addAbs (avgOf pts) dp)
        else addAbs (avgOf pts) dp) := by
  by_cases h : avgOf pts = 0 <;>
    simp [assemble, h, List.getElem?_map, Option.map_map, Function.comp_def]

theorem assemble_map_value (pts : List DataPoint) :
    (assemble pts).dataPoints.map DataPoint.value = pts.map DataPoint.value := by
  by_cases h : avgOf pts = 0 <;>
    simp [assemble, h, List.map_map, Function.comp_def]

theorem d3Max_eq_none_iff (l : List ℚ) : d3Max l = none ↔ l = [] := by
  cases l with
  | nil => simp [d3Max]
  | cons v rest =>
    constructor
    · intro h
      exfalso
      unfold d3Max at h
      cases hd : d3Max rest <;> rw [hd] at h <;> simp at h
    · intro h
      exact absurd h (by simp)

theorem d3Max_spec : ∀ (l : List ℚ), l ≠ [] →
    ∃ m, d3Max l = some m ∧ m ∈ l ∧ ∀ x ∈ l, x ≤ m := by
  intro l
  induction l with
  | nil => intro h; exact absurd rfl h
  | cons v rest ih =>
    intro _
    cases hd : d3Max rest with
    | none =>
      have hrest := (d3Max_eq_none_iff rest).mp hd
      subst hrest
      exact ⟨v, by simp [d3Max], by simp, by simp⟩
    | some m =>
      have hne : rest ≠ [] := by
        intro heq
        subst heq
        simp [d3Max] at hd
      obtain ⟨m2, hm2, hmem, hub⟩ := ih hne
      rw [hd] at hm2
      injection hm2 with hm2
      subst hm2
      refine ⟨max v m, ?_, ?_, ?_⟩
      · simp only [d3Max, hd]
      · rcases le_total v m with h | h
        · rw [max_eq_right h]
          exact List.mem_cons_of_mem v hmem
        · rw [max_eq_left h]
          exact List.mem_cons_self v rest
      · intro x hx
        rcases List.mem_cons.mp hx with h | h
        · rw [h]
          exact le_max_left v m
        · exact le_trans (hub x h) (le_max_right v m)

theorem filter_highlighted_pos_iff (l : List DataPoint) :
    0 < (l.filter (fun d => d.highlighted)).length ↔
      ∃ dp ∈ l, dp.highlighted = true := by
  induction l with
  | nil => simp
  | cons a rest ih =>
    by_cases ha : a.highlighted = true
    · simp [List.filter_cons, ha]
    · simp only [List.filter_cons, ha]
      simp only [Bool.false_eq_true, if_false, decide_eq_true_eq] at *
      constructor
      · intro h
        obtain ⟨dp, hmem, hdp⟩ := ih.mp h
        exact ⟨dp, List.mem_cons_of_mem a hmem, hdp⟩
      · rintro ⟨dp, hmem, hdp⟩
        rcases List.mem_cons.mp hmem with h | h
        · subst h; exact absurd hdp ha
        · exact ih.mpr ⟨dp, h, hdp⟩

/-! ## Concrete inputs -/

/-- A host colour palette for concrete runs. -/
def pal0 : Option String → String := fun _ => "#01B8AA"

/-- The category column of the spec's worked example: A, B, C. -/
def catCol8 : CategoryColumn :=
  { source := some "cat-source", values := ["A", "B", "C"], objects := none }

/-- The measure column of the spec's worked example: 10, 20, 30. -/
def valCol8 : ValueColumn := { values := [10, 20, 30], highlights := none }

/-- Metadata with one category-role and one measure-role column. -/
def meta8 : Metadata :=
  { columns := [ { displayName := "Category", roleCategory := true, roleMeasure := false },
                 { displayName := "Measure", roleCategory := false, roleMeasure := true } ] }

/-- The well-formed input of the spec's worked example. -/
def opts8 : VisualUpdateOptions :=
  { dataViews := some [ { categorical := some { categories := some [catCol8],
                                                values := some [valCol8] },
                          metadata := some meta8 } ] }

/-- What `parseInput` extracts from `opts8`. -/
def core8 : Core :=
  { categories := catCol8, sourceKey := "cat-source", values := valCol8,
    catName := "Category", valName := "Measure" }

/-- An empty category column (for the zero-row input). -/
def catColEmpty : CategoryColumn := { source := some "k", values := [], objects := none }

/-- An empty measure column (for the zero-row input). -/
def valColEmpty : ValueColumn := { values := [], highlights := none }

/-- A well-formed input whose category and value arrays are both empty:
zero rows on the accepted path. -/
def optsEmptyRows : VisualUpdateOptions :=
  { dataViews := some [ { categorical := some { categories := some [catColEmpty],
                                                values := some [valColEmpty] },
                          metadata := some meta8 } ] }

/-- A two-entry category column A, B. -/
def catColAB : CategoryColumn := { source := some "k", values := ["A", "B"], objects := none }

/-- A one-entry measure column holding 10. -/
def valColSingle : ValueColumn := { values := [10], highlights := none }

/-- A length-mismatched input with MORE categories than values:
categories A, B against the single value 10. -/
def optsCatLonger : VisualUpdateOptions :=
  { dataViews := some [ { categorical := some { categories := some [catColAB],
                                                values := some [valColSingle] },
                          metadata := some meta8 } ] }

/-- A one-entry category column A. -/
def catColA : CategoryColumn := { source := some "k2", values := ["A"], objects := none }

/-- A two-entry measure column holding 10, 20. -/
def valColPair : ValueColumn := { values := [10, 20], highlights := none }

/-- A length-mismatched input with more VALUES than categories:
the single category A against values 10, 20. -/
def optsValLonger : VisualUpdateOptions :=
  { dataViews := some [ { categorical := some { categories := some [catColA],
                                                values := some [valColPair] },
                          metadata := some meta8 } ] }

/-- What `parseInput` extracts from `optsValLonger`. -/
def coreValLonger : Core :=
  { categories := catColA, sourceKey := "k2", values := valColPair,
    catName := "Category", valName := "Measure" }

/-- A malformed input: the categories array is present but EMPTY, and the
values field and metadata are missing. -/
def optsEmptyCatsNoValues : VisualUpdateOptions :=
  { dataViews := some [ { categorical := some { categories := some [], values := none },
                          metadata := none } ] }

/-- A two-entry category column for the highlighted input. -/
def catCol9 : CategoryColumn := { source := some "k9", values := ["A", "B"], objects := none }

/-- A measure column with values 5, 7 and highlight entries 0 (falsy) and
3 (truthy). -/
def valCol9 : ValueColumn := { values := [5, 7], highlights := some [some 0, some 3] }

/-- An input with an active highlight state: rows A (value 5, highlight 0)
and B (value 7, highlight 3). -/
def opts9 : VisualUpdateOptions :=
  { dataViews := some [ { categorical := some { categories := some [catCol9],
                                                values := some [valCol9] },
                          metadata := some meta8 } ] }

/-- What `parseInput` extracts from `opts9`. -/
def core9 : Core :=
  { categories := catCol9, sourceKey := "k9", values := valCol9,
    catName := "Category", valName := "Measure" }

/-! ## Claims -/

/-- Claim C8: on categories A, B, C with values 10, 20, 30 the builder
returns maxValue 30 and average 20, and each row's tooltips carry the
absolute deviations -10, 0, 10 and the percent deviations -50%, 0%, 50%,
each formatted to two decimals. -/
theorem c8_worked_example :
    getViewModel pal0 opts8 = .ok (vmOf pal0 opts8) ∧
    (vmOf pal0 opts8).maxValue = some 30 ∧
    (vmOf pal0 opts8).average = 20 ∧
    (vmOf pal0 opts8).dataPoints.map (fun (dp : DataPoint) => dp.tooltips) =
      [ [ { displayName := "Category", value := some "A" },
          { displayName := "Measure", value := some "10.00" },
          { displayName := "Deviation (abs)", value := some "-10.00" },
          { displayName := "Deviation (%)", value := some "-50.00%" } ],
        [ { displayName := "Category", value := some "B" },
          { displayName := "Measure", value := some "20.00" },
          { displayName := "Deviation (abs)", value := some "0.00" },
          { displayName := "Deviation (%)", value := some "0.00%" } ],
        [ { displayName := "Category", value := some "C" },
          { displayName := "Measure", value := some "30.00" },
          { displayName := "Deviation (abs)", value := some "10.00" },
          { displayName := "Deviation (%)", value := some "50.00%" } ] ] := by
  refine ⟨rfl, ?_, ?_, ?_⟩ <;> with_unfolding_all decide

/-- Claim C1, counterexample: `optsEmptyCatsNoValues` is malformed (its
values field and metadata are missing), yet `getViewModel` throws a
`TypeError` instead of returning the empty view model, because the guard
dereferences `categories[0].source` while the categories array is empty. -/
theorem c1_counterexample :
    getViewModel pal0 optsEmptyCatsNoValues = .error JsError.typeError := by
  rfl

/-- Claim C2, counterexample: on the well-formed zero-row input
`optsEmptyRows` the builder succeeds but `maxValue` is `d3.max` of an empty
array, i.e. `undefined` (`none`) — not the number 0 the claim requires. -/
theorem c2_counterexample :
    (getViewModel pal0 optsEmptyRows).map ViewModel.maxValue = .ok none ∧
    (Except.ok (none : Option ℚ) : Except JsError (Option ℚ)) ≠ .ok (some 0) := by
  exact ⟨rfl, by simp⟩

/-- Claim C7, counterexample: when the category array is longer than the
value array (`optsCatLonger`: two categories, one value) the builder does
crash — the measure tooltip's `toFixed` is called on `undefined` at index 1
(part_000 line 344) and throws a `TypeError`. -/
theorem c7_counterexample :
    getViewModel pal0 optsCatLonger = .error JsError.typeError := by
  rfl

/-! ## Per-point characterisation -/

@[simp] theorem pointAt_value (palette : Option String → String) (core : Core)
    (i : Nat) (v : ℚ) : (pointAt palette core i v).value = v := rfl

@[simp] theorem pointAt_identity (palette : Option String → String) (core : Core)
    (i : Nat) (v : ℚ) :
    (pointAt palette core i v).identity = { sourceKey := core.sourceKey, row := i } := rfl

@[simp] theorem pointAt_highlighted (palette : Option String → String) (core : Core)
    (i : Nat) (v : ℚ) :
    (pointAt palette core i v).highlighted = highlightedAt core.values.highlights i := rfl

@[simp] theorem pointAt_category (palette : Option String → String) (core : Core)
    (i : Nat) (v : ℚ) :
    (pointAt palette core i v).category = core.categories.values[i]? := rfl

/-- Every data point of a successful build is, at its index `j`, the point
built from `values.values[j]`, decorated with the deviation tooltips. -/
theorem dataPoint_at (palette : Option String → String) (core : Core)
    (vm : ViewModel) (h : buildViewModel palette core = .ok vm)
    (j : Nat) (dp : DataPoint) (hdp : vm.dataPoints[j]? = some dp) :
    ∃ v, core.values.values[j]? = some v ∧
      dp = (if vm.average ≠ 0
            then addPct vm.average (addAbs vm.average (pointAt palette core j v))
            else addAbs vm.average (pointAt palette core j v)) := by
  obtain ⟨pts, hpts, hvm⟩ := buildViewModel_ok palette core vm h
  subst hvm
  rw [assemble_getElem] at hdp
  obtain ⟨dp0, hdp0, hdec⟩ := Option.map_eq_some'.mp hdp
  have hjlt : j < pts.length := by
    by_contra hge
    rw [List.getElem?_eq_none (Nat.le_of_not_lt hge)] at hdp0
    exact Option.noConfusion hdp0
  obtain ⟨hlen, hspec⟩ := buildPointsFrom_spec palette core _ 0 pts hpts
  obtain ⟨v, hv, hpt⟩ := hspec j (by omega)
  rw [Nat.zero_add] at hv hpt
  rw [hpt] at hdp0
  injection hdp0 with hdp0
  refine ⟨v, hv, ?_⟩
  rw [← hdec, ← hdp0]
  rfl

/-- Claim C4: for every accepted input on which the build succeeds, the
data-point list has exactly `max(len(categories), len(values))` elements,
one per input row index. -/
theorem c4_dataPoints_length (palette : Option String → String)
    (opts : VisualUpdateOptions) (core : Core) (vm : ViewModel)
    (hp : parseInput opts = .ok (some core))
    (h : getViewModel palette opts = .ok vm) :
    vm.dataPoints.length =
      Nat.max core.categories.values.length core.values.values.length := by
  rw [getViewModel_eq_build palette opts core hp] at h
  obtain ⟨pts, hpts, hvm⟩ := buildViewModel_ok palette core vm h
  subst hvm
  rw [assemble_length]
  exact (buildPointsFrom_spec palette core _ 0 pts hpts).1

/-- Claim C4 witness: on the three-row worked-example input the builder
returns exactly three data points. -/
theorem c4_dataPoints_length_witness : (vmOf pal0 opts8).dataPoints.length = 3 := by
  have h := c4_dataPoints_length pal0 opts8 core8 (vmOf pal0 opts8) rfl rfl
  exact h.trans (by decide)

/-- Claim C2 (amended): on the accepted path, `maxValue` is the maximum of
all data-point values whenever there is at least one row; with zero rows it
is `undefined` (`none`), not 0 — only the malformed-input path yields 0. -/
theorem c2_maxValue (palette : Option String → String)
    (opts : VisualUpdateOptions) (core : Core) (vm : ViewModel)
    (hp : parseInput opts = .ok (some core))
    (h : getViewModel palette opts = .ok vm) :
    (vm.dataPoints ≠ [] →
      ∃ m, vm.maxValue = some m ∧ m ∈ vm.dataPoints.map DataPoint.value ∧
        ∀ dp ∈ vm.dataPoints, dp.value ≤ m) ∧
    (vm.dataPoints = [] → vm.maxValue = none) := by
  rw [getViewModel_eq_build palette opts core hp] at h
  obtain ⟨pts, hpts, hvm⟩ := buildViewModel_ok palette core vm h
  subst hvm
  constructor
  · intro hne
    have hptsne : pts.map DataPoint.value ≠ [] := by
      intro hnil
      apply hne
      have h0 : pts = [] := List.map_eq_nil_iff.mp hnil
      subst h0
      have := assemble_length ([] : List DataPoint)
      exact List.eq_nil_of_length_eq_zero (by simpa using this)
    obtain ⟨m, hm, hmem, hub⟩ := d3Max_spec (pts.map DataPoint.value) hptsne
    refine ⟨m, ?_, ?_, ?_⟩
    · rw [assemble_maxValue]
      exact hm
    · rw [assemble_map_value]
      exact hmem
    · intro dp hdp
      apply hub
      rw [← assemble_map_value pts]
      exact List.mem_map_of_mem DataPoint.value hdp
  · intro he
    have h0 : pts = [] := by
      have := assemble_length pts
      rw [he] at this
      exact List.eq_nil_of_length_eq_zero this.symm
    subst h0
    rw [assemble_maxValue]
    rfl

/-- Claim C2 witness: on the worked-example input the data-point list is
nonempty and `maxValue` is a defined number. -/
theorem c2_maxValue_witness :
    (vmOf pal0 opts8).dataPoints ≠ [] ∧ (vmOf pal0 opts8).maxValue ≠ none := by
  have h := c2_maxValue pal0 opts8 core8 (vmOf pal0 opts8) rfl rfl
  have hne : (vmOf pal0 opts8).dataPoints ≠ [] := by with_unfolding_all decide
  obtain ⟨m, hm, _, _⟩ := h.1 hne
  exact ⟨hne, by rw [hm]; simp⟩

/-- Claim C3: on the accepted path, `average` is the sum of the data-point
values divided by the row count when there is at least one row, and stays 0
when there are zero rows (the division is never reached in that case). -/
theorem c3_average (palette : Option String → String)
    (opts : VisualUpdateOptions) (core : Core) (vm : ViewModel)
    (hp : parseInput opts = .ok (some core))
    (h : getViewModel palette opts = .ok vm) :
    (vm.dataPoints ≠ [] →
      vm.average =
        (vm.dataPoints.map DataPoint.value).sum / (vm.dataPoints.length : ℚ)) ∧
    (vm.dataPoints = [] → vm.average = 0) := by
  rw [getViewModel_eq_build palette opts core hp] at h
  obtain ⟨pts, hpts, hvm⟩ := buildViewModel_ok palette core vm h
  subst hvm
  constructor
  · intro hne
    have hpos : 0 < pts.length := by
      rcases Nat.eq_zero_or_pos pts.length with h0 | h0
      · exact absurd (by
          have := assemble_length pts
          rw [h0] at this
          exact List.eq_nil_of_length_eq_zero this) hne
      · exact h0
    rw [assemble_average, avgOf, if_pos hpos, assemble_map_value, assemble_length]
  · intro he
    have h0 : pts.length = 0 := by
      have := assemble_length pts
      rw [he] at this
      exact this.symm
    rw [assemble_average, avgOf, if_neg (by omega)]

/-- Claim C3 witness: on the worked-example input the average is 20. -/
theorem c3_average_witness : (vmOf pal0 opts8).average = 20 := by
  have h := c3_average pal0 opts8 core8 (vmOf pal0 opts8) rfl rfl
  rw [h.1 (by with_unfolding_all decide)]
  with_unfolding_all decide

/-- Membership with a given highlight flag is unchanged by the deviation
tooltip decoration. -/
theorem assemble_exists_highlighted (pts : List DataPoint) :
    (∃ dp ∈ (assemble pts).dataPoints, dp.highlighted = true) ↔
      ∃ dp ∈ pts, dp.highlighted = true := by
  by_cases h : avgOf pts = 0 <;>
    simp [assemble, h, List.mem_map]

/-- Claim C6: on the accepted path, the view model's `highlights` flag is
true exactly when at least one data point is highlighted. -/
theorem c6_highlights_iff (palette : Option String → String)
    (opts : VisualUpdateOptions) (core : Core) (vm : ViewModel)
    (hp : parseInput opts = .ok (some core))
    (h : getViewModel palette opts = .ok vm) :
    vm.highlights = true ↔ ∃ dp ∈ vm.dataPoints, dp.highlighted = true := by
  rw [getViewModel_eq_build palette opts core hp] at h
  obtain ⟨pts, hpts, hvm⟩ := buildViewModel_ok palette core vm h
  subst hvm
  rw [assemble_highlights, decide_eq_true_eq, filter_highlighted_pos_iff,
    assemble_exists_highlighted]

/-- Claim C6 witness: on the input with one truthy highlight entry the
`highlights` flag is true. -/
theorem c6_highlights_iff_witness : (vmOf pal0 opts9).highlights = true := by
  have h := c6_highlights_iff pal0 opts9 core9 (vmOf pal0 opts9) rfl rfl
  refine h.mpr ⟨(vmOf pal0 opts9).dataPoints.getD 1 dpDefault, ?_, ?_⟩ <;>
    with_unfolding_all decide

/-- The highlight flag is true exactly when the highlights array exists and
its entry at the row index is a nonzero number (truthy). -/
theorem highlightedAt_iff (hl : Option (List (Option ℚ))) (i : Nat) :
    highlightedAt hl i = true ↔
      ∃ l q, hl = some l ∧ l[i]? = some (some q) ∧ q ≠ 0 := by
  unfold highlightedAt
  cases hl with
  | none => simp
  | some l =>
    cases hli : l[i]? with
    | none => simp [hli]
    | some o =>
      cases o with
      | none => simp [hli]
      | some q =>
        simp only [hli, decide_eq_true_eq]
        constructor
        · intro hq
          exact ⟨l, q, rfl, hli, hq⟩
        · rintro ⟨l2, q2, hl2, hq2, hne⟩
          injection hl2 with hl2
          subst hl2
          rw [hli] at hq2
          injection hq2 with hq2
          injection hq2 with hq2
          subst hq2
          exact hne

/-- Claim C10: on the accepted path, each data point's `highlighted` field
is a strict boolean that is true exactly when the highlights array exists
and its entry at that row index is truthy (a nonzero number); it is false
when the array is absent or the entry is null, zero or out of range. -/
theorem c10_highlighted_strict (palette : Option String → String)
    (opts : VisualUpdateOptions) (core : Core) (vm : ViewModel)
    (hp : parseInput opts = .ok (some core))
    (h : getViewModel palette opts = .ok vm)
    (j : Nat) (dp : DataPoint) (hdp : vm.dataPoints[j]? = some dp) :
    dp.highlighted = true ↔
      ∃ l q, core.values.highlights = some l ∧ l[j]? = some (some q) ∧ q ≠ 0 := by
  rw [getViewModel_eq_build palette opts core hp] at h
  obtain ⟨v, hv, hdec⟩ := dataPoint_at palette core vm h j dp hdp
  have hhl : dp.highlighted = highlightedAt core.values.highlights j := by
    rw [hdec]
    by_cases havg : vm.average ≠ 0
    · rw [if_pos havg]
      simp
    · rw [if_neg havg]
      simp
  rw [hhl, highlightedAt_iff]

/-- Claim C10 witness: on the highlighted input, row 1 (entry 3, truthy) is
highlighted. -/
theorem c10_highlighted_strict_witness :
    ((vmOf pal0 opts9).dataPoints.getD 1 dpDefault).highlighted = true := by
  have h := c10_highlighted_strict pal0 opts9 core9 (vmOf pal0 opts9) rfl rfl 1
    ((vmOf pal0 opts9).dataPoints.getD 1 dpDefault) (by with_unfolding_all decide)
  exact h.mpr ⟨[some 0, some 3], 3, rfl, by decide, by decide⟩

/-- Claim C5: on the accepted path every data point's tooltip list is the
category and measure entries, then ALWAYS the absolute-deviation entry
(value minus average, two decimals), then the percent-deviation entry
(100 times (value minus average) over average, two decimals plus percent
sign) exactly when the dataset average is not 0. -/
theorem c5_tooltips (palette : Option String → String)
    (opts : VisualUpdateOptions) (core : Core) (vm : ViewModel)
    (hp : parseInput opts = .ok (some core))
    (h : getViewModel palette opts = .ok vm)
    (j : Nat) (dp : DataPoint) (hdp : vm.dataPoints[j]? = some dp) :
    ∃ v, core.values.values[j]? = some v ∧
      dp.tooltips =
        [ { displayName := core.catName, value := core.categories.values[j]? },
          { displayName := core.valName, value := some (toFixed2 v) },
          { displayName := "Deviation (abs)",
            value := some (toFixed2 (v - vm.average)) } ] ++
        (if vm.average ≠ 0 then
          [ { displayName := "Deviation (%)",
              value := some (toFixed2 (100 * (v - vm.average) / vm.average) ++ "%") } ]
         else []) := by
  rw [getViewModel_eq_build palette opts core hp] at h
  obtain ⟨v, hv, hdec⟩ := dataPoint_at palette core vm h j dp hdp
  refine ⟨v, hv, ?_⟩
  rw [hdec]
  by_cases havg : vm.average ≠ 0
  · rw [if_pos havg, if_pos havg]
    simp [addPct, addAbs, pointAt]
  · rw [if_neg havg, if_neg havg]
    simp [addAbs, pointAt]

/-- Claim C5 witness: on the worked-example input (average 20, nonzero) the
first data point carries all four tooltip entries. -/
theorem c5_tooltips_witness :
    ((vmOf pal0 opts8).dataPoints.getD 0 dpDefault).tooltips.length = 4 := by
  obtain ⟨v, hv, ht⟩ := c5_tooltips pal0 opts8 core8 (vmOf pal0 opts8) rfl rfl 0
    ((vmOf pal0 opts8).dataPoints.getD 0 dpDefault) (by with_unfolding_all decide)
  rw [ht]
  have havg : (vmOf pal0 opts8).average ≠ 0 := by with_unfolding_all decide
  rw [if_pos havg]
  simp

/-- Claim C9: the build is deterministic (two runs on the same input yield
equal identities at every index), and within one build, data points at
distinct row indices carry distinct identities (the row index is part of
the selection key). -/
theorem c9_identity_stable_and_distinct (palette : Option String → String)
    (opts : VisualUpdateOptions) (core : Core) (vm vm2 : ViewModel)
    (hp : parseInput opts = .ok (some core))
    (h : getViewModel palette opts = .ok vm)
    (h2 : getViewModel palette opts = .ok vm2) :
    (∀ (j : Nat), (vm.dataPoints[j]?).map DataPoint.identity =
          (vm2.dataPoints[j]?).map DataPoint.identity) ∧
    (∀ (i j : Nat) (dpi dpj : DataPoint),
      vm.dataPoints[i]? = some dpi → vm.dataPoints[j]? = some dpj →
      i ≠ j → dpi.identity ≠ dpj.identity) := by
  have hvm12 : vm = vm2 := by
    rw [h] at h2
    injection h2
  constructor
  · intro j
    rw [hvm12]
  · rw [getViewModel_eq_build palette opts core hp] at h
    intro i j dpi dpj hi hj hij
    obtain ⟨vi, hvi, hdi⟩ := dataPoint_at palette core vm h i dpi hi
    obtain ⟨vj, hvj, hdj⟩ := dataPoint_at palette core vm h j dpj hj
    have hidi : dpi.identity = { sourceKey := core.sourceKey, row := i } := by
      rw [hdi]
      by_cases havg : vm.average ≠ 0
      · rw [if_pos havg]
        simp
      · rw [if_neg havg]
        simp
    have hidj : dpj.identity = { sourceKey := core.sourceKey, row := j } := by
      rw [hdj]
      by_cases havg : vm.average ≠ 0
      · rw [if_pos havg]
        simp
      · rw [if_neg havg]
        simp
    rw [hidi, hidj]
    intro hcontra
    injection hcontra with hs hr
    exact hij hr

/-- Claim C9 witness: on the worked-example input, the identities of rows 0
and 1 are distinct. -/
theorem c9_identity_witness :
    ((vmOf pal0 opts8).dataPoints.getD 0 dpDefault).identity ≠
    ((vmOf pal0 opts8).dataPoints.getD 1 dpDefault).identity := by
  have h := c9_identity_stable_and_distinct pal0 opts8 core8
    (vmOf pal0 opts8) (vmOf pal0 opts8) rfl rfl rfl
  exact h.2 0 1 _ _ (by with_unfolding_all decide) (by with_unfolding_all decide)
    (by decide)

/-- Claim C7 (amended): when the VALUE array is at least as long as the
category array, the builder iterates to the longer length without crashing
and treats the missing categories as absent (`undefined`); when the
category array is the longer one it throws instead (see the
counterexample). -/
theorem c7_no_crash_when_values_cover (palette : Option String → String)
    (opts : VisualUpdateOptions) (core : Core)
    (hp : parseInput opts = .ok (some core))
    (hlen : core.categories.values.length ≤ core.values.values.length) :
    ∃ vm, getViewModel palette opts = .ok vm ∧
      vm.dataPoints.length =
        Nat.max core.categories.values.length core.values.values.length ∧
      ∀ j dp, vm.dataPoints[j]? = some dp →
        core.categories.values.length ≤ j → dp.category = none := by
  obtain ⟨pts, hpts⟩ := buildPointsFrom_ok_of_le palette core
    (Nat.max core.categories.values.length core.values.values.length) 0
    (by simp [Nat.max_eq_right hlen])
  have hbuild : buildViewModel palette core = .ok (assemble pts) := by
    unfold buildViewModel
    rw [hpts]
  refine ⟨assemble pts, ?_, ?_, ?_⟩
  · rw [getViewModel_eq_build palette opts core hp]
    exact hbuild
  · rw [assemble_length]
    exact (buildPointsFrom_spec palette core _ 0 pts hpts).1
  · intro j dp hdp hj
    obtain ⟨v, hv, hdec⟩ := dataPoint_at palette core (assemble pts) hbuild j dp hdp
    have hcat : dp.category = core.categories.values[j]? := by
      rw [hdec]
      by_cases havg : (assemble pts).average ≠ 0
      · rw [if_pos havg]
        simp
      · rw [if_neg havg]
        simp
    rw [hcat]
    exact List.getElem?_eq_none hj

/-- Claim C7 witness: one category against two values builds two data
points without throwing. -/
theorem c7_no_crash_witness :
    getViewModel pal0 optsValLonger = .ok (vmOf pal0 optsValLonger) ∧
    (vmOf pal0 optsValLonger).dataPoints.length = 2 := by
  obtain ⟨vm, hvm, hlen, _⟩ := c7_no_crash_when_values_cover pal0 optsValLonger
    coreValLonger rfl (by decide)
  have heq : vmOf pal0 optsValLonger = vm := by
    unfold vmOf
    rw [hvm]
  refine ⟨?_, ?_⟩
  · rw [heq]
    exact hvm
  · rw [heq, hlen]
    decide

/-- Claim C1 (amended): when the data views, the first data view, the
categorical section, the categories field, the source of the first category
column, the values field or the metadata is absent, the builder returns the
empty view model without throwing — provided the categories array, when it
is present, is nonempty (an empty categories array makes the guard itself
throw; see the counterexample). -/
theorem c1_absent_fields_empty (palette : Option String → String)
    (opts : VisualUpdateOptions)
    (h : opts.dataViews = none
      ∨ ∃ dvs, opts.dataViews = some dvs ∧
        (dvs[0]? = none
         ∨ ∃ dv0, dvs[0]? = some dv0 ∧
           (dv0.categorical = none
            ∨ ∃ view, dv0.categorical = some view ∧
              (view.categories = none
               ∨ ∃ catCols c0, view.categories = some catCols ∧ catCols[0]? = some c0 ∧
                 (c0.source = none ∨ view.values = none ∨ dv0.metadata = none))))) :
    getViewModel palette opts = .ok emptyViewModel := by
  rcases h with h | ⟨dvs, hdvs, h⟩
  · simp [getViewModel, parseInput, h]
  rcases h with h | ⟨dv0, hdv0, h⟩
  · simp [getViewModel, parseInput, hdvs, h]
  rcases h with h | ⟨view, hview, h⟩
  · simp [getViewModel, parseInput, hdvs, hdv0, h]
  rcases h with h | ⟨catCols, c0, hcc, hc0, h⟩
  · simp [getViewModel, parseInput, hdvs, hdv0, hview, h]
  rcases h with h | h | h
  · simp [getViewModel, parseInput, hdvs, hdv0, hview, hcc, hc0, h]
  · cases hs : c0.source <;>
      simp [getViewModel, parseInput, hdvs, hdv0, hview, hcc, hc0, hs, h]
  · cases hs : c0.source
    · simp [getViewModel, parseInput, hdvs, hdv0, hview, hcc, hc0, hs]
    · cases hv : view.values <;>
        simp [getViewModel, parseInput, hdvs, hdv0, hview, hcc, hc0, hs, hv, h]

/-- Claim C1 witness: an input with no data views at all yields the empty
view model. -/
theorem c1_absent_fields_empty_witness :
    getViewModel pal0 { dataViews := none } = .ok emptyViewModel :=
  c1_absent_fields_empty pal0 { dataViews := none } (Or.inl rfl)
